import Mathlib

/-!
Verification of the event-broadcast core of a minimal Socket.IO chat relay
(FastAPI + python-socketio server, `server/main.py`).

The server registers three Socket.IO event handlers (`connect`, `disconnect`,
`chat_message`) and mounts an HTTP route table.  The handlers themselves carry
no mutable state; the set of connected sessions is tracked internally by the
Socket.IO transport layer, which the design document describes as the
Connection Registry (`Register` / `Unregister` / `All`) together with a
broadcast-all `emit` primitive.  Those transport-level pieces are modelled
from the design document; the handler bodies and the HTTP route table are
translated directly from the source.
-/

namespace ChatApp

/-- A Python/JSON-like value, as carried in Socket.IO payloads: a string or a
dict of string keys to values (field order kept, as in a Python dict literal). -/
inductive Value where
  | str : String → Value
  | obj : List (String × Value) → Value

/-- Field access `payload[k]` on a dict payload: the first binding of key `k`,
`none` when the key is missing or the payload is not a dict. -/
def getField (v : Value) (k : String) : Option Value :=
  match v with
  | Value.str _ => none
  | Value.obj fields => (fields.find? (fun kv => kv.1 == k)).map (fun kv => kv.2)

/-- Modelled from the spec: the Connection Registry — the Socket.IO transport
layer's internal set of currently-connected session ids (the source keeps no
registry of its own; `python-socketio` tracks connections internally).  This is
the only mutable server state. -/
structure ServerState where
  registry : List String
  deriving DecidableEq, Repr

/-- Modelled from the spec: `Register(id)` adds `id` to the active set
(precondition: `id` not already present, guaranteed by the transport layer). -/
def Register (id : String) (st : ServerState) : ServerState :=
  ServerState.mk (id :: st.registry)

/-- Modelled from the spec: `Unregister(id)` removes `id` from the active set;
absent ids are a no-op. -/
def Unregister (id : String) (st : ServerState) : ServerState :=
  ServerState.mk (st.registry.erase id)

/-- Modelled from the spec: `All()` — the snapshot of active session ids used
to determine broadcast targets. -/
def All (st : ServerState) : List String :=
  st.registry

/-- One diagnostic log line, as printed by the handlers in `server/main.py`:
the connect and disconnect banners record the session id, the chat banner
records the session id and the raw inbound payload. -/
inductive LogLine where
  | connected : String → LogLine
  | disconnected : String → LogLine
  | says : String → Value → LogLine

/-- One transport-level send: a named event with a payload delivered to one
target session. -/
structure Send where
  target : String
  event : String
  payload : Value

/-- A Python runtime error escaping a handler (e.g. a `KeyError` from a missing
dict field). -/
inductive PyError where
  | keyError : String → PyError
  deriving DecidableEq, Repr

/-- Modelled from the spec: the transport's `emit(eventName, payload,
broadcast-all)` primitive — one send of the same event and payload to every
session currently present in `Registry.All()`. -/
def broadcastAll (st : ServerState) (ev : String) (p : Value) : List Send :=
  (All st).map (fun t => Send.mk t ev p)

/-- The `connect` handler from `server/main.py`: its body only prints a
diagnostic banner with the session id; it touches no other state. -/
def connect (sid : String) (_environ : Value) (st : ServerState) :
    ServerState × List LogLine :=
  (st, [LogLine.connected sid])

/-- The `disconnect` handler from `server/main.py`: its body only prints a
diagnostic banner with the session id; it touches no other state. -/
def disconnect (sid : String) (st : ServerState) :
    ServerState × List LogLine :=
  (st, [LogLine.disconnected sid])

/-- The outbound payload built by the `chat_message` handler:
the dict literal with key `sid` bound to the sender's session id and key
`message` bound to the entire inbound payload. -/
def outPayload (sid : String) (data : Value) : Value :=
  Value.obj [("sid", Value.str sid), ("message", data)]

/-- The `chat_message` handler from `server/main.py`: prints the raw inbound
payload, then emits event `chat_message` with payload
`(sid ↦ sender id, message ↦ data)` as a broadcast to all connected sessions.
The body performs no dict-field access and no other fallible operation, so it
returns `Except.ok`; the result is the (unchanged) server state, the log lines
printed, and the sends performed. -/
def chat_message (sid : String) (data : Value) (st : ServerState) :
    Except PyError (ServerState × List LogLine × List Send) :=
  Except.ok (st, [LogLine.says sid data],
    broadcastAll st "chat_message" (outPayload sid data))

/-- The sends performed by a handler run (none when the handler raised). -/
def sendsOf (r : Except PyError (ServerState × List LogLine × List Send)) :
    List Send :=
  match r with
  | Except.ok (_, _, ss) => ss
  | Except.error _ => []

/-- Modelled from the spec: the full disconnect path — the transport layer
invokes the source's `disconnect` handler and removes the session from its
internal registry (`Unregister`). -/
def onDisconnect (sid : String) (st : ServerState) :
    ServerState × List LogLine :=
  (Unregister sid (disconnect sid st).1, (disconnect sid st).2)

/-- A transport lifecycle event: a client connecting or disconnecting. -/
inductive TEvent where
  | tconnect : String → TEvent
  | tdisconnect : String → TEvent
  deriving DecidableEq, Repr

/-- Modelled from the spec: effect of one lifecycle event on the registry. -/
def stepTransport (st : ServerState) (e : TEvent) : ServerState :=
  match e with
  | TEvent.tconnect id => Register id st
  | TEvent.tdisconnect id => Unregister id st

/-- Run a sequence of lifecycle events from a starting state. -/
def runTransport (evs : List TEvent) (st : ServerState) : ServerState :=
  evs.foldl stepTransport st

/-- Number of connect events in a sequence. -/
def countConnects : List TEvent → Nat
  | [] => 0
  | TEvent.tconnect _ :: t => countConnects t + 1
  | TEvent.tdisconnect _ :: t => countConnects t

/-- Number of disconnect events in a sequence. -/
def countDisconnects : List TEvent → Nat
  | [] => 0
  | TEvent.tconnect _ :: t => countDisconnects t
  | TEvent.tdisconnect _ :: t => countDisconnects t + 1

/-- Well-formedness of a lifecycle sequence, as the transport layer guarantees
it: a session connects only when not already registered and disconnects only
while registered. -/
def wfEvents (st : ServerState) : List TEvent → Bool
  | [] => true
  | TEvent.tconnect id :: evs =>
      if id ∈ st.registry then false else wfEvents (Register id st) evs
  | TEvent.tdisconnect id :: evs =>
      if id ∈ st.registry then wfEvents (Unregister id st) evs else false

/-- The HTTP response shapes relevant to this server: a file served from disk,
or a plain in-band text message. -/
inductive HttpResponse where
  | fileResponse : String → HttpResponse
  | plainMessage : String → HttpResponse
  deriving DecidableEq, Repr

/-- One entry of the application's route table: a static-file mount (directory,
html-index-fallback flag) or a GET route (path, response). -/
inductive AppRoute where
  | mountStatic : String → Bool → AppRoute
  | getRoute : String → HttpResponse → AppRoute
  deriving DecidableEq, Repr

/-- The HTTP route table registered in `server/main.py`, in registration
order: the static-file mount at the root serving `../client/dist` with
`html = True` (index fallback), then the GET route at `/` whose handler
`serve_react_index` returns a `FileResponse` of
`os.path.join("../frontend/dist", "index.html")`. -/
def appRoutes : List AppRoute :=
  [AppRoute.mountStatic "../client/dist" true,
   AppRoute.getRoute "/" (HttpResponse.fileResponse "../frontend/dist/index.html")]

/-- Whether a route is a GET route at the root path returning a plain
(liveness) message rather than a file. -/
def isPlainRootRoute : AppRoute → Bool
  | AppRoute.getRoute p (HttpResponse.plainMessage _) => p == "/"
  | _ => false

/- ## Helper lemmas -/

theorem runTransport_cons (e : TEvent) (t : List TEvent) (st : ServerState) :
    runTransport (e :: t) st = runTransport t (stepTransport st e) := rfl

theorem wf_length (evs : List TEvent) (st : ServerState)
    (h : wfEvents st evs = true) :
    (runTransport evs st).registry.length + countDisconnects evs
      = st.registry.length + countConnects evs := by
  induction evs generalizing st with
  | nil => simp [runTransport, countConnects, countDisconnects]
  | cons e t ih =>
    cases e with
    | tconnect id =>
      rw [wfEvents] at h
      by_cases hm : id ∈ st.registry
      · simp [hm] at h
      · rw [if_neg hm] at h
        have hrec := ih (Register id st) h
        have hreg : (Register id st).registry.length = st.registry.length + 1 := rfl
        rw [runTransport_cons]
        simp only [stepTransport, countConnects, countDisconnects]
        omega
    | tdisconnect id =>
      rw [wfEvents] at h
      by_cases hm : id ∈ st.registry
      · rw [if_pos hm] at h
        have hrec := ih (Unregister id st) h
        have hun : (Unregister id st).registry.length = (st.registry.erase id).length := rfl
        have hlen : (st.registry.erase id).length = st.registry.length - 1 :=
          List.length_erase_of_mem hm
        have hpos : 0 < st.registry.length := List.length_pos_of_mem hm
        rw [runTransport_cons]
        simp only [stepTransport, countConnects, countDisconnects]
        omega
      · simp [hm] at h

theorem wf_nodup (evs : List TEvent) (st : ServerState)
    (h : wfEvents st evs = true) (hn : st.registry.Nodup) :
    (runTransport evs st).registry.Nodup := by
  induction evs generalizing st with
  | nil => exact hn
  | cons e t ih =>
    cases e with
    | tconnect id =>
      rw [wfEvents] at h
      by_cases hm : id ∈ st.registry
      · simp [hm] at h
      · rw [if_neg hm] at h
        exact ih (Register id st) h (List.nodup_cons.mpr ⟨hm, hn⟩)
    | tdisconnect id =>
      rw [wfEvents] at h
      by_cases hm : id ∈ st.registry
      · rw [if_pos hm] at h
        exact ih (Unregister id st) h (hn.erase id)
      · simp [hm] at h

/- ## Claim theorems -/

/-- C1 counterexample: a `chat_message` from session `S` carrying
`(name ↦ Hamza, message ↦ Hello!)` while `S`, `T`, `U` are registered produces
three sends, but each send's payload is `(sid ↦ S, message ↦ <whole inbound
payload>)` — the sender-supplied fields are nested under the `message` key, not
preserved at top level, and the flat payload the claim describes is a different
value. -/
theorem chat_payload_not_flattened :
    chat_message "S"
        (Value.obj [("name", Value.str "Hamza"), ("message", Value.str "Hello!")])
        (ServerState.mk ["S", "T", "U"])
      = Except.ok (ServerState.mk ["S", "T", "U"],
          [LogLine.says "S"
            (Value.obj [("name", Value.str "Hamza"), ("message", Value.str "Hello!")])],
          [Send.mk "S" "chat_message"
             (Value.obj [("sid", Value.str "S"),
               ("message", Value.obj [("name", Value.str "Hamza"), ("message", Value.str "Hello!")])]),
           Send.mk "T" "chat_message"
             (Value.obj [("sid", Value.str "S"),
               ("message", Value.obj [("name", Value.str "Hamza"), ("message", Value.str "Hello!")])]),
           Send.mk "U" "chat_message"
             (Value.obj [("sid", Value.str "S"),
               ("message", Value.obj [("name", Value.str "Hamza"), ("message", Value.str "Hello!")])])]) ∧
    Value.obj [("sid", Value.str "S"),
        ("message", Value.obj [("name", Value.str "Hamza"), ("message", Value.str "Hello!")])]
      ≠ Value.obj [("sid", Value.str "S"),
          ("name", Value.str "Hamza"), ("message", Value.str "Hello!")] := by
  refine ⟨rfl, ?_⟩
  simp

/-- C1 (amended): a `chat_message` event from any session while exactly the
three sessions `s`, `t`, `u` are registered results in exactly three broadcast
sends, one to each of `s`, `t`, `u`, each carrying the event `chat_message`
with payload `(sid ↦ sender, message ↦ <entire inbound payload>)`; the state is
unchanged and no error is raised. -/
theorem chat_broadcast_three_sends (sid nm msg : String) (s t u : String)
    (st : ServerState) (h : All st = [s, t, u]) :
    chat_message sid (Value.obj [("name", Value.str nm), ("message", Value.str msg)]) st
      = Except.ok (st,
          [LogLine.says sid (Value.obj [("name", Value.str nm), ("message", Value.str msg)])],
          [Send.mk s "chat_message"
             (outPayload sid (Value.obj [("name", Value.str nm), ("message", Value.str msg)])),
           Send.mk t "chat_message"
             (outPayload sid (Value.obj [("name", Value.str nm), ("message", Value.str msg)])),
           Send.mk u "chat_message"
             (outPayload sid (Value.obj [("name", Value.str nm), ("message", Value.str msg)]))]) := by
  simp [chat_message, broadcastAll, h]

theorem chat_broadcast_three_sends_witness :
    All (ServerState.mk ["S", "T", "U"]) = ["S", "T", "U"] ∧
    chat_message "S"
        (Value.obj [("name", Value.str "Ali"), ("message", Value.str "hey")])
        (ServerState.mk ["S", "T", "U"])
      = Except.ok (ServerState.mk ["S", "T", "U"],
          [LogLine.says "S" (Value.obj [("name", Value.str "Ali"), ("message", Value.str "hey")])],
          [Send.mk "S" "chat_message"
             (outPayload "S" (Value.obj [("name", Value.str "Ali"), ("message", Value.str "hey")])),
           Send.mk "T" "chat_message"
             (outPayload "S" (Value.obj [("name", Value.str "Ali"), ("message", Value.str "hey")])),
           Send.mk "U" "chat_message"
             (outPayload "S" (Value.obj [("name", Value.str "Ali"), ("message", Value.str "hey")]))]) :=
  ⟨rfl, chat_broadcast_three_sends "S" "Ali" "hey" "S" "T" "U" (ServerState.mk ["S", "T", "U"]) rfl⟩

/-- C2: the broadcast of a `chat_message` targets exactly the
currently-registered sessions, so a registered sender receives its own message;
in particular, when the sender is the only registered session there is exactly
one send, delivered to the sender. -/
theorem broadcast_includes_sender (sid : String) (data : Value) (st : ServerState)
    (h : sid ∈ st.registry) :
    ∃ ls ss, chat_message sid data st = Except.ok (st, ls, ss) ∧
      ss.map Send.target = All st ∧
      sid ∈ ss.map Send.target ∧
      (All st = [sid] → ss = [Send.mk sid "chat_message" (outPayload sid data)]) := by
  refine ⟨_, _, rfl, ?_, ?_, ?_⟩
  · simp [broadcastAll, Function.comp_def]
  · simpa [broadcastAll, All] using h
  · intro hreg
    simp [broadcastAll, hreg]

theorem broadcast_includes_sender_witness :
    "S" ∈ (ServerState.mk ["S"]).registry ∧
    ∃ ls ss, chat_message "S" (Value.str "hi") (ServerState.mk ["S"]) = Except.ok (ServerState.mk ["S"], ls, ss) ∧
      ss.map Send.target = All (ServerState.mk ["S"]) ∧
      "S" ∈ ss.map Send.target ∧
      (All (ServerState.mk ["S"]) = ["S"] →
        ss = [Send.mk "S" "chat_message" (outPayload "S" (Value.str "hi"))]) :=
  ⟨by decide, broadcast_includes_sender "S" (Value.str "hi") (ServerState.mk ["S"]) (by decide)⟩

/-- C3 counterexample: a payload missing both required fields of contract (a)
(`name` and `message`) does not raise — the handler performs no field access
and succeeds, broadcasting the malformed payload wrapped under the `message`
key. -/
theorem malformed_payload_no_error :
    getField (Value.obj []) "name" = none ∧
    getField (Value.obj []) "message" = none ∧
    chat_message "S" (Value.obj []) (ServerState.mk ["S"])
      = Except.ok (ServerState.mk ["S"],
          [LogLine.says "S" (Value.obj [])],
          [Send.mk "S" "chat_message"
             (Value.obj [("sid", Value.str "S"), ("message", Value.obj [])])]) :=
  ⟨rfl, rfl, rfl⟩

/-- C3 (amended): a payload lacking `name` or `message` is NOT an error: the
handler accesses no fields, so it succeeds, leaves all server state unchanged,
and broadcasts the payload verbatim nested under the `message` key — hence the
event is still scoped to itself, other sessions are unaffected, and subsequent
well-formed messages broadcast from the same (unchanged) state. -/
theorem malformed_payload_scoped (sid : String) (p : Value) (st : ServerState)
    (_h : getField p "name" = none ∨ getField p "message" = none) :
    chat_message sid p st
      = Except.ok (st, [LogLine.says sid p],
          broadcastAll st "chat_message" (outPayload sid p)) := rfl

theorem malformed_payload_scoped_witness :
    (getField (Value.obj [("name", Value.str "Hamza")]) "name" = none ∨
      getField (Value.obj [("name", Value.str "Hamza")]) "message" = none) ∧
    chat_message "S" (Value.obj [("name", Value.str "Hamza")]) (ServerState.mk ["S", "T"])
      = Except.ok (ServerState.mk ["S", "T"],
          [LogLine.says "S" (Value.obj [("name", Value.str "Hamza")])],
          broadcastAll (ServerState.mk ["S", "T"]) "chat_message"
            (outPayload "S" (Value.obj [("name", Value.str "Hamza")]))) :=
  ⟨Or.inr rfl,
   malformed_payload_scoped "S" (Value.obj [("name", Value.str "Hamza")])
     (ServerState.mk ["S", "T"]) (Or.inr rfl)⟩

/-- C4: for a session id absent from the active set, the disconnect path is a
no-op: the handler only logs, `Unregister` leaves the active set unchanged, and
nothing fails or raises (both operations are total and return normally). -/
theorem unregister_absent_noop (sid : String) (st : ServerState)
    (h : sid ∉ st.registry) :
    onDisconnect sid st = (st, [LogLine.disconnected sid]) ∧
    All (Unregister sid st) = All st := by
  have he : st.registry.erase sid = st.registry := List.erase_of_not_mem h
  constructor
  · simp [onDisconnect, disconnect, Unregister, he]
  · simp [All, Unregister, he]

theorem unregister_absent_noop_witness :
    "x" ∉ (ServerState.mk ["a", "b"]).registry ∧
    (onDisconnect "x" (ServerState.mk ["a", "b"])
        = (ServerState.mk ["a", "b"], [LogLine.disconnected "x"]) ∧
      All (Unregister "x" (ServerState.mk ["a", "b"])) = All (ServerState.mk ["a", "b"])) :=
  ⟨by decide, unregister_absent_noop "x" (ServerState.mk ["a", "b"]) (by decide)⟩

/-- C5: every send of a `chat_message` broadcast carries the outbound event
name `chat_message`, identical to the inbound event name — one per registered
session. -/
theorem outbound_event_name (sid : String) (data : Value) (st : ServerState) :
    ∃ ls ss, chat_message sid data st = Except.ok (st, ls, ss) ∧
      ss.map Send.event = List.replicate (All st).length "chat_message" := by
  refine ⟨_, _, rfl, ?_⟩
  simp [broadcastAll, Function.comp_def, List.map_const']

/-- C6: starting from an empty registry, after any transport-well-formed
sequence of connect/disconnect events (connect only for ids not currently
registered, disconnect only for registered ids), the size of `Registry.All()`
equals the number of connects minus the number of disconnects, the count never
goes negative (disconnects never exceed connects), and the registry never
double-counts a session (no duplicates). -/
theorem registry_count_invariant (evs : List TEvent)
    (h : wfEvents (ServerState.mk []) evs = true) :
    countDisconnects evs ≤ countConnects evs ∧
    (All (runTransport evs (ServerState.mk []))).length
      = countConnects evs - countDisconnects evs ∧
    (All (runTransport evs (ServerState.mk []))).Nodup := by
  have h1 := wf_length evs (ServerState.mk []) h
  have h2 := wf_nodup evs (ServerState.mk []) h (by simp)
  simp only [List.length_nil] at h1
  exact ⟨by omega, by simpa [All] using (by omega :
    (runTransport evs (ServerState.mk [])).registry.length
      = countConnects evs - countDisconnects evs), by simpa [All] using h2⟩

theorem registry_count_invariant_witness :
    wfEvents (ServerState.mk [])
        [TEvent.tconnect "a", TEvent.tconnect "b", TEvent.tdisconnect "a"] = true ∧
    (countDisconnects [TEvent.tconnect "a", TEvent.tconnect "b", TEvent.tdisconnect "a"]
        ≤ countConnects [TEvent.tconnect "a", TEvent.tconnect "b", TEvent.tdisconnect "a"] ∧
      (All (runTransport [TEvent.tconnect "a", TEvent.tconnect "b", TEvent.tdisconnect "a"]
          (ServerState.mk []))).length
        = countConnects [TEvent.tconnect "a", TEvent.tconnect "b", TEvent.tdisconnect "a"]
          - countDisconnects [TEvent.tconnect "a", TEvent.tconnect "b", TEvent.tdisconnect "a"] ∧
      (All (runTransport [TEvent.tconnect "a", TEvent.tconnect "b", TEvent.tdisconnect "a"]
          (ServerState.mk []))).Nodup) :=
  ⟨by decide, registry_count_invariant
    [TEvent.tconnect "a", TEvent.tconnect "b", TEvent.tdisconnect "a"] (by decide)⟩

/-- C7: handling a `chat_message` never stores anything: the handler returns
the server state it was given (the registry and all other program state are
unchanged), succeeding with only transient log lines and sends. -/
theorem chat_message_frame (sid : String) (data : Value) (st : ServerState) :
    ∃ ls ss, chat_message sid data st = Except.ok (st, ls, ss) :=
  ⟨_, _, rfl⟩

/-- C8 counterexample: the route table of `server/main.py` has no root route
returning a plain (liveness) message — its root GET route returns a
`FileResponse` of `../frontend/dist/index.html`. -/
theorem root_route_not_liveness :
    appRoutes.any isPlainRootRoute = false ∧
    AppRoute.getRoute "/" (HttpResponse.fileResponse "../frontend/dist/index.html")
      ∈ appRoutes := by
  exact ⟨rfl, by decide⟩

/-- C8 (amended): the HTTP boundary exposes exactly two entries: a static-file
mount serving the prebuilt bundle directory `../client/dist` with html-index
fallback enabled, and a single root GET route that returns a `FileResponse` of
`../frontend/dist/index.html` — not a liveness message. -/
theorem http_boundary_routes :
    appRoutes.length = 2 ∧
    AppRoute.mountStatic "../client/dist" true ∈ appRoutes ∧
    AppRoute.getRoute "/" (HttpResponse.fileResponse "../frontend/dist/index.html")
      ∈ appRoutes ∧
    appRoutes.any isPlainRootRoute = false := by
  refine ⟨rfl, by decide, by decide, rfl⟩

/-- C9: the `connect` and `disconnect` handlers mutate no server state — each
returns the state unchanged, and its only effect is exactly one diagnostic log
line recording the session id. -/
theorem lifecycle_handlers_frame (sid : String) (environ : Value) (st : ServerState) :
    connect sid environ st = (st, [LogLine.connected sid]) ∧
    disconnect sid st = (st, [LogLine.disconnected sid]) :=
  ⟨rfl, rfl⟩

/-- C10: the `chat_message` handler is deterministic in `(sid, data)`: any two
sends produced from the same `(sid, data)` pair, from any two server states,
carry the same event name and the same payload — namely `chat_message` and
`(sid ↦ sid, message ↦ data)` — so the emitted payload depends on no other
server state. -/
theorem chat_message_deterministic (sid : String) (data : Value)
    (st₁ st₂ : ServerState) (s₁ s₂ : Send)
    (h₁ : s₁ ∈ sendsOf (chat_message sid data st₁))
    (h₂ : s₂ ∈ sendsOf (chat_message sid data st₂)) :
    s₁.event = s₂.event ∧ s₁.payload = s₂.payload ∧
    s₁.event = "chat_message" ∧ s₁.payload = outPayload sid data := by
  simp only [sendsOf, chat_message, broadcastAll, List.mem_map] at h₁ h₂
  obtain ⟨t₁, ht₁, hs₁⟩ := h₁
  obtain ⟨t₂, ht₂, hs₂⟩ := h₂
  subst hs₁; subst hs₂
  exact ⟨rfl, rfl, rfl, rfl⟩

theorem chat_message_deterministic_witness :
    Send.mk "S" "chat_message" (outPayload "S" (Value.str "hi"))
        ∈ sendsOf (chat_message "S" (Value.str "hi") (ServerState.mk ["S"])) ∧
    Send.mk "T" "chat_message" (outPayload "S" (Value.str "hi"))
        ∈ sendsOf (chat_message "S" (Value.str "hi") (ServerState.mk ["T", "S"])) ∧
    ((Send.mk "S" "chat_message" (outPayload "S" (Value.str "hi"))).event
        = (Send.mk "T" "chat_message" (outPayload "S" (Value.str "hi"))).event ∧
      (Send.mk "S" "chat_message" (outPayload "S" (Value.str "hi"))).payload
        = (Send.mk "T" "chat_message" (outPayload "S" (Value.str "hi"))).payload ∧
      (Send.mk "S" "chat_message" (outPayload "S" (Value.str "hi"))).event = "chat_message" ∧
      (Send.mk "S" "chat_message" (outPayload "S" (Value.str "hi"))).payload
        = outPayload "S" (Value.str "hi")) :=
  ⟨List.Mem.head _, List.Mem.head _,
   chat_message_deterministic "S" (Value.str "hi")
     (ServerState.mk ["S"]) (ServerState.mk ["T", "S"])
     (Send.mk "S" "chat_message" (outPayload "S" (Value.str "hi")))
     (Send.mk "T" "chat_message" (outPayload "S" (Value.str "hi")))
     (List.Mem.head _) (List.Mem.head _)⟩

end ChatApp
